import Mathlib

/-!
Verification development for the lightmap baking core of the tile-game
repository: the atlas mapper (IrradianceAtlasMapper), the progressive
irradiance renderer loop (useAtlas in Atlas.tsx) and the compositor
(IrradianceCompositor).  Source constructs are embedded shallowly:
numeric buffer contents become functions from indices to rationals or
naturals, the per-frame tick becomes an explicit state transition, and
thrown exceptions become an Except result.
-/

namespace TileGame

/-! ### Atlas mapper payload encoding (IrradianceAtlasMapper) -/

/-- Capacity constant used for encoding item plus face index in the atlas
texture (source line: export const MAX_ITEM_FACES = 1000). -/
def MAX_ITEM_FACES : Nat := 1000

/-- Local quad corner X of an un-indexed face vertex:
facePosX = faceMod and 1, where faceMod = faceVertexIndex % 3. -/
def facePosX (faceVertexIndex : Nat) : Nat := (faceVertexIndex % 3) &&& 1

/-- Local quad corner Y of an un-indexed face vertex:
facePosY = (faceMod and 2) shifted right by 1. -/
def facePosY (faceVertexIndex : Nat) : Nat := ((faceVertexIndex % 3) &&& 2) >>> 1

/-- Zero-based face index of an un-indexed face vertex:
(faceVertexIndex - faceMod) / 3. -/
def payloadFaceIndex (faceVertexIndex : Nat) : Nat :=
  (faceVertexIndex - faceVertexIndex % 3) / 3

/-- Encoded face id stored in the third payload component:
itemIndex * MAX_ITEM_FACES + faceIndex + 1. -/
def encodeFaceId (itemIndex faceIndex : Nat) : Nat :=
  itemIndex * MAX_ITEM_FACES + faceIndex + 1

/-- Face index recovered from an encoded id, as the specification words it:
(id - 1) % MAX_ITEM_FACES. -/
def decodeFaceIndexSpec (id : Nat) : Nat := (id - 1) % MAX_ITEM_FACES

/-- Item index recovered from an encoded id, as the specification words it:
(id - 1) / MAX_ITEM_FACES. -/
def decodeItemIndexSpec (id : Nat) : Nat := (id - 1) / MAX_ITEM_FACES

/-- Kind of the material found on a traversed mesh.  The mapper accepts a
single Lambert, Phong or standard material and rejects everything else
(missing material, material arrays, other kinds). -/
inductive MaterialKind
  | lambert
  | phong
  | standard
  | unsupported
deriving DecidableEq

/-- State of the lightMap slot on the material of a traversed mesh:
either empty, already holding the lightmap being attached, or holding
some other texture. -/
inductive LightMapSlot
  | empty
  | sameAsGiven
  | other
deriving DecidableEq

/-- Input mesh as seen by the atlas mapper traversal: optional secondary
UV attribute, optional index buffer, optional normal attribute, material
kind, and the state of the lightMap slot of the material. -/
structure MeshBuffer where
  uv2 : Option (Nat → ℚ × ℚ)
  index : Option (List Nat)
  normal : Option (Nat → ℚ × ℚ × ℚ)
  material : MaterialKind
  lightMapSlot : LightMapSlot

/-- Errors thrown synchronously by the atlas mapper traversal, one per
throw site in the source. -/
inductive MapperError
  | expectedFaceIndexArray
  | expectedNormalAttribute
  | unsupportedMaterial
  | foreignLightMap
deriving DecidableEq

/-- Payload geometry produced for one accepted mesh: its face count and
the un-indexed per-face-vertex attributes (atlas UV, atlas normal, and
the local-corner-plus-encoded-id position attribute). -/
structure PayloadItem where
  faceCount : Nat
  atlasFacePos : Nat → Nat × Nat × Nat
  atlasUV : Nat → ℚ × ℚ
  atlasNormal : Nat → ℚ × ℚ × ℚ

/-- Per-mesh step of the atlas mapper traversal.  A mesh without a
secondary UV attribute is skipped (ok none); a mesh with uv2 but without
an index buffer or a normal attribute throws; an unsupported material or
a foreign lightmap binding throws; otherwise the payload item is
produced (ok some).  Any error aborts the whole mapping pass. -/
def processMesh (itemIndex : Nat) (m : MeshBuffer) :
    Except MapperError (Option PayloadItem) :=
  match m.uv2 with
  | none => .ok none
  | some uv2Attr =>
    match m.index with
    | none => .error .expectedFaceIndexArray
    | some indexData =>
      match m.normal with
      | none => .error .expectedNormalAttribute
      | some normalAttr =>
        let faceVertexCount := indexData.length
        let item : PayloadItem :=
          { faceCount := faceVertexCount / 3
            atlasFacePos := fun i =>
              (facePosX i, facePosY i,
                encodeFaceId itemIndex (payloadFaceIndex i))
            atlasUV := fun i => uv2Attr (indexData.getD i 0)
            atlasNormal := fun i => normalAttr (indexData.getD i 0) }
        match m.material, m.lightMapSlot with
        | .unsupported, _ => .error .unsupportedMaterial
        | _, .other => .error .foreignLightMap
        | _, _ => .ok (some item)

/-- Face count stored in a successful mapper result, zero otherwise. -/
def resultFaceCount (e : Except MapperError (Option PayloadItem)) : Nat :=
  match e with
  | .ok (some item) => item.faceCount
  | _ => 0

/-- Encoded id component of the payload position attribute at a given
face vertex of a successful mapper result, zero otherwise. -/
def resultPayloadId (e : Except MapperError (Option PayloadItem))
    (faceVertexIndex : Nat) : Nat :=
  match e with
  | .ok (some item) => (item.atlasFacePos faceVertexIndex).2.2
  | _ => 0

/-- Fully formed input mesh with n faces (3 n index entries), used as a
concrete test input. -/
def wellFormedMesh (n : Nat) : MeshBuffer :=
  { uv2 := some fun _ => (0, 0)
    index := some (List.range (3 * n))
    normal := some fun _ => (0, 0, 1)
    material := .lambert
    lightMapSlot := .empty }

/-- Concrete mesh that has index and normal data but no secondary UV
attribute. -/
def meshWithoutUv2 : MeshBuffer :=
  { uv2 := none
    index := some (List.range 6)
    normal := some fun _ => (0, 0, 1)
    material := .lambert
    lightMapSlot := .empty }

/-! ### Progressive renderer fill cursor (useAtlas in Atlas.tsx)

The per-frame loop keeps one pixelFillCount per atlas face plus the index
of the face currently being filled (atlasFaceFillIndexRef).  Each tick
visits the texel at offset pixelFillCount inside the current face,
advances the count modulo the texel count of the face, moves to the next
face when the count wraps to zero, and triggers the promotion of the
atlas texture stack when the face index wraps back to 4. -/

/-- Fill cursor state: current atlas face index and the pixelFillCount of
every atlas face. -/
structure FillCursor where
  faceIdx : Nat
  counts : List Nat
deriving DecidableEq

/-- Result of one cursor advance: the next cursor state, the visited
texel as a pair (face index, texel offset inside the face), and whether
the atlas texture stack gets promoted at the end of this tick. -/
structure CursorStep where
  next : FillCursor
  visited : Nat × Nat
  promote : Bool
deriving DecidableEq

/-- Initial value of atlasFaceFillIndexRef (source: useRef(4)). -/
def atlasFaceFillIndexInit : Nat := 4

/-- One cursor advance, with sizes listing the texel count
(faceTexelRows * faceTexelCols) of every atlas face.  Mirrors Atlas.tsx
lines 202-235: the visited texel offset is the pre-increment
pixelFillCount, the count advances modulo the face texel count, the face
index advances modulo the face count when the count wraps to zero, and
promotion triggers exactly when the advanced face index equals 4. -/
def cursorStep (sizes : List Nat) (s : FillCursor) : CursorStep :=
  let f := s.faceIdx
  let sz := sizes.getD f 0
  let c := s.counts.getD f 0
  let c2 := (c + 1) % sz
  let counts2 := s.counts.set f c2
  if c2 = 0 then
    let f2 := (f + 1) % sizes.length
    ⟨⟨f2, counts2⟩, (f, c), f2 == 4⟩
  else
    ⟨⟨f, counts2⟩, (f, c), false⟩

/-- Iterated cursor advance over a number of ticks, returning the final
cursor state and the list of visited texels in visit order. -/
def cursorRun (sizes : List Nat) (s : FillCursor) : Nat → FillCursor × List (Nat × Nat)
  | 0 => (s, [])
  | k + 1 =>
    let st := cursorStep sizes s
    let rest := cursorRun sizes st.next k
    (rest.1, st.visited :: rest.2)

/-- Faces in visit order: m successive face indices starting at f,
wrapping modulo the face count n. -/
def faceSeq (n f m : Nat) : List Nat :=
  (List.range m).map fun k => (f + k) % n

/-- Expected visit trace of one full pass starting at face f: all texels
of face f, then of the next face, wrapping around through every atlas
face once (face-major, texel-minor order). -/
def passTrace (sizes : List Nat) (f : Nat) : List (Nat × Nat) :=
  (faceSeq sizes.length f sizes.length).flatMap fun g =>
    (List.range (sizes.getD g 0)).map fun t => (g, t)

/-! ### Renderer tick: probe readback averaging and buffer write

Atlas.tsx defines a 128 by 128 atlas, a 32 by 32 probe render target read
back as RGBA bytes, and per tick computes the per-channel mean over all
probe pixels, rounds it, and overwrites the three bytes of the visited
texel in the top accumulation buffer of the atlas texture stack. -/

/-- Atlas texture width in texels (source: const atlasWidth = 128). -/
def atlasWidth : Nat := 128

/-- Atlas texture height in texels (source: const atlasHeight = 128). -/
def atlasHeight : Nat := 128

/-- Probe render target size in pixels (source: probeTargetSize = 32). -/
def probeTargetSize : Nat := 32

/-- Number of pixels in the probe readback. -/
def probePixelCount : Nat := probeTargetSize * probeTargetSize

/-- Sum of one colour channel (0 red, 1 green, 2 blue) over every pixel
of the RGBA probe readback, mirroring the summation loop that walks the
readback with stride 4. -/
def channelSum (probe : Nat → Nat) (ch : Nat) : Nat :=
  ∑ i ∈ Finset.range probePixelCount, probe (4 * i + ch)

/-- Unweighted per-channel mean over all pixels of the probe readback. -/
def probeMean (probe : Nat → Nat) (ch : Nat) : ℚ :=
  (channelSum probe ch : ℚ) / (probePixelCount : ℚ)

/-- JavaScript Math.round for the nonnegative values appearing here:
floor of the argument plus one half. -/
def jsRound (q : ℚ) : ℤ := ⌊q + 1 / 2⌋

/-- Per-channel irradiance estimate written by a tick: the rounded mean
of the probe readback channel (source: Math.round(r / pixelCount)). -/
def probeEstimate (probe : Nat → Nat) (ch : Nat) : ℤ :=
  jsRound (probeMean probe ch)

/-- One accumulation buffer of the atlas texture stack: its data array
and the needsUpdate dirty flag of its texture. -/
structure AtlasLayer where
  data : Nat → ℤ
  dirty : Bool

instance : Inhabited AtlasLayer := ⟨⟨fun _ => 0, false⟩⟩

/-- Geometry of one atlas face as used by the fill loop: its texel grid
(faceTexelCols and faceTexelRows) and the texel position of its top-left
corner inside the atlas. -/
structure FaceInfo where
  cols : Nat
  rows : Nat
  texelX0 : Nat
  texelY0 : Nat

instance : Inhabited FaceInfo := ⟨⟨0, 0, 0, 0⟩⟩

/-- Full renderer state: the fill cursor and the atlas texture stack
(atlasStack, head is the buffer currently being filled). -/
structure RendererState where
  cursor : FillCursor
  stack : List AtlasLayer

/-- Texel count of every atlas face. -/
def faceSizes (info : List FaceInfo) : List Nat :=
  info.map fun fi => fi.rows * fi.cols

/-- Flat data index of the first byte of the texel visited by the tick:
the visited texel offset is split into column and row inside the face,
added to the face corner, and the resulting atlas texel position is
turned into a triple-stride index (source lines 215-216 and 237-241,
331-334). -/
def tickWriteIndex (info : List FaceInfo) (cursor : FillCursor) : Nat :=
  let st := cursorStep (faceSizes info) cursor
  let fi := info.getD st.visited.1 default
  let texelX := fi.texelX0 + st.visited.2 % fi.cols
  let texelY := fi.texelY0 + st.visited.2 / fi.cols
  (texelY * atlasWidth + texelX) * 3

/-- Overwrite of the three colour bytes of one texel inside a data
array, leaving every other index untouched. -/
def writeTexel (d : Nat → ℤ) (k : Nat) (r g b : ℤ) : Nat → ℤ :=
  fun j =>
    if j = k then r
    else if j = k + 1 then g
    else if j = k + 2 then b
    else d j

/-- Promotion of the atlas texture stack: the last buffer becomes the
new first one and every other buffer moves up one level (source:
const last = prev[prev.length - 1]; return [last, ...prev.slice(0, -1)]). -/
def promoteStack (stack : List AtlasLayer) : List AtlasLayer :=
  match stack.getLast? with
  | none => stack
  | some last => last :: stack.dropLast

/-- One renderer tick (the useFrame body in useAtlas).  With an empty
atlas face list the tick returns immediately without touching anything.
Otherwise it advances the fill cursor by one texel, overwrites the three
bytes of the visited texel in the head accumulation buffer with the
rounded per-channel probe means, marks that buffer dirty, and rotates
the stack when the cursor advance triggered promotion. -/
def rendererTick (info : List FaceInfo) (probe : Nat → Nat)
    (s : RendererState) : RendererState :=
  if info.length = 0 then s
  else
    let st := cursorStep (faceSizes info) s.cursor
    let k := tickWriteIndex info s.cursor
    let stack1 :=
      match s.stack with
      | [] => []
      | layer :: rest =>
        { data := writeTexel layer.data k (probeEstimate probe 0)
            (probeEstimate probe 1) (probeEstimate probe 2),
          dirty := true } :: rest
    { cursor := st.next, stack := if st.promote then promoteStack stack1 else stack1 }

/-- Layer of the post-tick stack that received the write of this tick:
the head when no promotion happened, otherwise the buffer that the
promotion rotated to the back of a two-buffer stack. -/
def tickWrittenLayer (info : List FaceInfo) (probe : Nat → Nat)
    (s : RendererState) : AtlasLayer :=
  if (cursorStep (faceSizes info) s.cursor).promote
  then (rendererTick info probe s).stack.getLastD default
  else (rendererTick info probe s).stack.headD default

/-! ### Probe camera placement (Atlas.tsx lines 243-298)

Buffer attributes are flat arrays indexed exactly as in the source: the
face vertex positions start at faceIndex * 4 * 3, the origin corner is
vertex 2, the U corner vertex 3, the V corner vertex 0, and the normal
is read at the start of the face normal range, which is vertex 0.  The
random up-vector angle enters through its cosine and sine. -/

/-- Result of the per-tick probe camera setup: camera position, lookAt
target and up vector, all in mesh-local space. -/
structure ProbePlacement where
  position : ℚ × ℚ × ℚ
  lookTarget : ℚ × ℚ × ℚ
  up : ℚ × ℚ × ℚ

/-- Probe camera setup for one texel: texelPos is the origin corner plus
the U and V axis vectors scaled by the local texel coordinates; the
camera sits at texelPos; texelPos is then shifted by the normal read at
the face normal start and becomes the lookAt target; the up vector is a
rotation of the U and V axes by the random angle. -/
def placeProbe (posArray normalArray : Nat → ℚ) (faceIndex : Nat)
    (pU pV cosA sinA : ℚ) : ProbePlacement :=
  let facePosStart := faceIndex * 4 * 3
  let facePosOrigin := facePosStart + 2 * 3
  let facePosU := facePosStart + 3 * 3
  let facePosV := facePosStart
  let faceNormalStart := faceIndex * 4 * 3
  let ox := posArray facePosOrigin
  let oy := posArray (facePosOrigin + 1)
  let oz := posArray (facePosOrigin + 2)
  let dUx := posArray facePosU - ox
  let dUy := posArray (facePosU + 1) - oy
  let dUz := posArray (facePosU + 2) - oz
  let dVx := posArray facePosV - ox
  let dVy := posArray (facePosV + 1) - oy
  let dVz := posArray (facePosV + 2) - oz
  let texelPosX := ox + dUx * pU + dVx * pV
  let texelPosY := oy + dUy * pU + dVy * pV
  let texelPosZ := oz + dUz * pU + dVz * pV
  { position := (texelPosX, texelPosY, texelPosZ)
    lookTarget :=
      (texelPosX + normalArray faceNormalStart,
        texelPosY + normalArray (faceNormalStart + 1),
        texelPosZ + normalArray (faceNormalStart + 2))
    up :=
      (dUx * cosA - dVx * sinA,
        dUy * cosA - dVy * sinA,
        dUz * cosA - dVz * sinA) }

/-- Corner k (0 to 3) of a face read from a flat vertex attribute
array. -/
def faceCorner (arr : Nat → ℚ) (faceIndex k : Nat) : ℚ × ℚ × ℚ :=
  (arr (faceIndex * 4 * 3 + 3 * k),
    arr (faceIndex * 4 * 3 + 3 * k + 1),
    arr (faceIndex * 4 * 3 + 3 * k + 2))

/-- Bilinear interpolation across the four corners of a quad, following
the wording of the specification (corner c00 is the origin, c10 the U
corner, c01 the V corner, c11 the far corner). -/
def bilinearPoint (c00 c10 c01 c11 : ℚ × ℚ × ℚ) (u v : ℚ) : ℚ × ℚ × ℚ :=
  ((1 - u) * (1 - v)) • c00 + (u * (1 - v)) • c10
    + ((1 - u) * v) • c01 + (u * v) • c11

/-- Affine interpolation from the origin corner along the U and V axis
vectors, which is what the source computes (the far corner is unused). -/
def affineInterp (o uC vC : ℚ × ℚ × ℚ) (u v : ℚ) : ℚ × ℚ × ℚ :=
  o + u • (uC - o) + v • (vC - o)

/-- Concrete position array of one unit quad face in the XY plane, with
the vertex layout of the plane geometry used by the source: vertex 0 at
(0,1,0), vertex 1 at (1,1,0), vertex 2 at (0,0,0), vertex 3 at (1,0,0). -/
def unitQuadPos : Nat → ℚ := fun j =>
  if j = 1 ∨ j = 3 ∨ j = 4 ∨ j = 9 then 1 else 0

/-- Concrete normal array of the unit quad: all four corner normals are
(0, 0, 1). -/
def unitQuadNormal : Nat → ℚ := fun j => if j % 3 = 2 then 1 else 0

/-! ### Compositor (IrradianceCompositor.tsx)

Factor layers are looked up by name.  Each layer material owns a
multiplier uniform initialised to 0.  Every display tick first refreshes
the uniforms (the base layer multiplier becomes 1; a factor layer
multiplier is overwritten by the current factor value only when that
value is truthy, so a zero value leaves the old uniform in place), then
renders all layers additively over a cleared target, each texel
receiving the sum of the layer colours scaled by the layer uniforms. -/

/-- Uniform state of the compositor layer materials. -/
structure CompositorState where
  baseUniform : ℚ
  factorUniforms : String → ℚ

/-- Initial uniform state: every multiplier uniform starts at 0
(source: uniforms - multiplier - value 0). -/
def compositorInit : CompositorState := ⟨0, fun _ => 0⟩

/-- Per-factor uniform refresh (source: const multiplier = factors and
factors[factorName]; if (factorMaterialRef.current and multiplier) then
assign).  A missing or zero (falsy) value leaves the uniform unchanged. -/
def updateFactorUniform (factors : String → Option ℚ) (prev : String → ℚ)
    (name : String) : ℚ :=
  match factors name with
  | some m => if m = 0 then prev name else m
  | none => prev name

/-- Uniform refresh pass of one display tick: the base multiplier is set
to 1 and every named factor uniform is refreshed. -/
def compositorUniformTick (factorNames : List String)
    (factors : String → Option ℚ) (s : CompositorState) : CompositorState :=
  { baseUniform := 1
    factorUniforms := fun n =>
      if n ∈ factorNames then updateFactorUniform factors s.factorUniforms n
      else s.factorUniforms n }

/-- Additive blending of one full-surface layer quad into the render
target: the fragment colour is the sampled texture colour scaled by the
multiplier uniform, added onto the destination. -/
def additiveBlendLayer (dst : ℚ × ℚ × ℚ) (mult : ℚ)
    (color : ℚ × ℚ × ℚ) : ℚ × ℚ × ℚ :=
  dst + mult • color

/-- Colour of one output texel after the compositing render: the target
is cleared to zero, the base layer is blended with the base uniform,
then every factor layer is blended in order with its uniform. -/
def compositeTexel (s : CompositorState) (baseColor : ℚ × ℚ × ℚ)
    (factorColor : String → ℚ × ℚ × ℚ) (factorNames : List String) : ℚ × ℚ × ℚ :=
  factorNames.foldl
    (fun dst n => additiveBlendLayer dst (s.factorUniforms n) (factorColor n))
    (additiveBlendLayer (0, 0, 0) s.baseUniform baseColor)

/-- One full compositor display tick: refresh the uniforms, then
composite; returns the new uniform state and the output texel colour
(for a texel whose base and factor texture samples are given). -/
def compositorTick (factorNames : List String) (factors : String → Option ℚ)
    (baseColor : ℚ × ℚ × ℚ) (factorColor : String → ℚ × ℚ × ℚ)
    (s : CompositorState) : CompositorState × (ℚ × ℚ × ℚ) :=
  let s2 := compositorUniformTick factorNames factors s
  (s2, compositeTexel s2 baseColor factorColor factorNames)

/-! ### Claims C1, C2, C8 about the atlas mapper -/

/-- Claim C1 counterexample: the mapper writes encoded ids that break the
stated round trip.  The mapper accepts a 1001-face mesh without any
capacity check; the payload vertex 3000 of that mesh (its face 1000)
carries encoded id 1001, and (1001 - 1) % MAX_ITEM_FACES = 0, which is
not the face index 1000 that was combined to encode it. -/
theorem encodeRoundTrip_counterexample :
    resultPayloadId (processMesh 0 (wellFormedMesh 1001)) 3000
        = encodeFaceId 0 1000
      ∧ payloadFaceIndex 3000 = 1000
      ∧ decodeFaceIndexSpec
          (resultPayloadId (processMesh 0 (wellFormedMesh 1001)) 3000)
          ≠ payloadFaceIndex 3000 := by
  refine ⟨rfl, rfl, ?_⟩
  decide

/-- Claim C1 (amended): for every encoded face id produced from a face
index below MAX_ITEM_FACES, the id is nonzero (0 stays reserved for
unmapped texels), (id - 1) % MAX_ITEM_FACES recovers the face index and
(id - 1) / MAX_ITEM_FACES recovers the item index.  The bound on the
face index is necessary: the mapper itself never enforces it. -/
theorem encodeRoundTrip (itemIndex faceIndex : Nat)
    (h : faceIndex < MAX_ITEM_FACES) :
    encodeFaceId itemIndex faceIndex ≠ 0
      ∧ decodeFaceIndexSpec (encodeFaceId itemIndex faceIndex) = faceIndex
      ∧ decodeItemIndexSpec (encodeFaceId itemIndex faceIndex) = itemIndex := by
  refine ⟨by simp [encodeFaceId], ?_, ?_⟩
  · show (itemIndex * MAX_ITEM_FACES + faceIndex + 1 - 1) % MAX_ITEM_FACES
        = faceIndex
    rw [Nat.add_sub_cancel, Nat.mul_comm, Nat.mul_add_mod]
    exact Nat.mod_eq_of_lt h
  · show (itemIndex * MAX_ITEM_FACES + faceIndex + 1 - 1) / MAX_ITEM_FACES
        = itemIndex
    rw [Nat.add_sub_cancel, Nat.mul_comm,
      Nat.mul_add_div (by decide : 0 < MAX_ITEM_FACES)]
    simp [Nat.div_eq_of_lt h]

/-- Claim C1 witness: the round trip evaluated at item 2, face 3. -/
theorem encodeRoundTrip_witness :
    encodeFaceId 2 3 ≠ 0
      ∧ decodeFaceIndexSpec (encodeFaceId 2 3) = 3
      ∧ decodeItemIndexSpec (encodeFaceId 2 3) = 2 :=
  encodeRoundTrip 2 3 (by decide)

/-- Claim C2 counterexample: a well-formed mesh with MAX_ITEM_FACES + 1
faces is processed successfully — no CapacityExceeded error (nor any
other error) is raised anywhere in the mapper. -/
theorem capacityCheck_counterexample :
    (processMesh 0 (wellFormedMesh (MAX_ITEM_FACES + 1))).isOk = true
      ∧ resultFaceCount (processMesh 0 (wellFormedMesh (MAX_ITEM_FACES + 1)))
          = MAX_ITEM_FACES + 1 := by
  constructor
  · rfl
  · show (List.range (3 * (MAX_ITEM_FACES + 1))).length / 3 = MAX_ITEM_FACES + 1
    rw [List.length_range, Nat.mul_div_cancel_left _ (by decide : 0 < 3)]

/-- Claim C2 (amended): the mapper performs no face-count capacity check
at all.  Every mesh carrying uv2, index and normal attributes, a
supported material and no foreign lightmap binding is accepted, whatever
its face count; in particular a mesh with MAX_ITEM_FACES + 1 faces
succeeds rather than failing with CapacityExceeded. -/
theorem mapper_no_capacity_check (itemIndex : Nat) (m : MeshBuffer)
    (u : Nat → ℚ × ℚ) (l : List Nat) (nf : Nat → ℚ × ℚ × ℚ)
    (hu : m.uv2 = some u) (hi : m.index = some l) (hn : m.normal = some nf)
    (hm : m.material ≠ .unsupported) (hs : m.lightMapSlot ≠ .other) :
    (processMesh itemIndex m).isOk = true
      ∧ resultFaceCount (processMesh itemIndex m) = l.length / 3 := by
  obtain ⟨uv2a, idxa, norma, mat, slot⟩ := m
  dsimp only at hu hi hn hm hs
  subst hu; subst hi; subst hn
  cases mat <;> cases slot <;>
    first
      | exact absurd rfl hm
      | exact absurd rfl hs
      | exact ⟨rfl, rfl⟩

/-- Claim C2 witness: the amended statement applied to the concrete
1001-face mesh. -/
theorem mapper_no_capacity_check_witness :
    (processMesh 0 (wellFormedMesh (MAX_ITEM_FACES + 1))).isOk = true
      ∧ resultFaceCount (processMesh 0 (wellFormedMesh (MAX_ITEM_FACES + 1)))
          = (List.range (3 * (MAX_ITEM_FACES + 1))).length / 3 :=
  mapper_no_capacity_check 0 (wellFormedMesh (MAX_ITEM_FACES + 1))
    (fun _ => (0, 0)) (List.range (3 * (MAX_ITEM_FACES + 1)))
    (fun _ => (0, 0, 1)) rfl rfl rfl (by decide) (by decide)

/-- Claim C8 counterexample: a mesh lacking only the secondary UV
attribute is silently skipped (the traversal returns early before any
validation), not rejected with a validation error as claimed. -/
theorem missingAttr_counterexample :
    processMesh 0 meshWithoutUv2 = .ok none ∧ meshWithoutUv2.uv2 = none := by
  exact ⟨rfl, rfl⟩

/-- Claim C8 (amended): a participating mesh that has a secondary UV
attribute but lacks an index buffer or a normal attribute causes a
synchronous validation error that aborts the whole mapping pass; a mesh
lacking the secondary UV attribute, however, is silently skipped rather
than rejected. -/
theorem mesh_validation (itemIndex : Nat) (m : MeshBuffer) :
    (m.uv2 = none → processMesh itemIndex m = .ok none)
      ∧ (∀ u, m.uv2 = some u → m.index = none →
          processMesh itemIndex m = .error .expectedFaceIndexArray)
      ∧ (∀ u l, m.uv2 = some u → m.index = some l → m.normal = none →
          processMesh itemIndex m = .error .expectedNormalAttribute) := by
  refine ⟨fun h => ?_, fun u hu hi => ?_, fun u l hu hi hn => ?_⟩
  · unfold processMesh; rw [h]
  · unfold processMesh; rw [hu, hi]
  · unfold processMesh; rw [hu, hi, hn]

/-- Claim C8 witness: the amended statement applied to concrete meshes
missing exactly one attribute each. -/
theorem mesh_validation_witness :
    processMesh 0 meshWithoutUv2 = .ok none
      ∧ processMesh 0 { meshWithoutUv2 with
            uv2 := some fun _ => (0, 0), index := none }
          = .error .expectedFaceIndexArray
      ∧ processMesh 0 { meshWithoutUv2 with
            uv2 := some fun _ => (0, 0), normal := none }
          = .error .expectedNormalAttribute :=
  ⟨(mesh_validation 0 meshWithoutUv2).1 rfl,
    (mesh_validation 0 { meshWithoutUv2 with
        uv2 := some fun _ => (0, 0), index := none }).2.1 _ rfl rfl,
    (mesh_validation 0 { meshWithoutUv2 with
        uv2 := some fun _ => (0, 0), normal := none }).2.2 _ _ rfl rfl rfl⟩

/-! ### Helper lemmas for the fill cursor -/

lemma getD_set_self (l : List Nat) (i v : Nat) (h : i < l.length) :
    (l.set i v).getD i 0 = v := by
  simp [List.getD, List.getElem?_set_self, h]

lemma getD_pos_of_mem_pos (l : List Nat) (i : Nat) (h : i < l.length)
    (hp : ∀ x ∈ l, 0 < x) : 0 < l.getD i 0 := by
  rw [List.getD_eq_getElem l 0 h]
  exact hp _ (l.getElem_mem h)

lemma getD_replicate_zero (n i : Nat) : (List.replicate n (0 : Nat)).getD i 0 = 0 := by
  rcases Nat.lt_or_ge i n with h | h
  · rw [List.getD_eq_getElem _ 0 (by simpa using h)]
    simp
  · rw [List.getD_eq_default]
    simpa using h

lemma cursorRun_append (sizes : List Nat) (a b : Nat) :
    ∀ s : FillCursor,
      cursorRun sizes s (a + b)
        = ((cursorRun sizes (cursorRun sizes s a).1 b).1,
            (cursorRun sizes s a).2 ++ (cursorRun sizes (cursorRun sizes s a).1 b).2) := by
  induction a with
  | zero => intro s; simp [cursorRun]
  | succ a ih =>
    intro s
    rw [Nat.succ_add]
    simp only [cursorRun]
    rw [ih]
    simp

lemma cursorRun_face (sizes : List Nat) :
    ∀ (k c f : Nat) (counts : List Nat),
      f < sizes.length → f < counts.length →
      c + k = sizes.getD f 0 → 0 < k →
      counts.getD f 0 = c →
      cursorRun sizes ⟨f, counts⟩ k
        = (⟨(f + 1) % sizes.length, counts.set f 0⟩,
            (List.range' c k).map fun t => (f, t)) := by
  intro k
  induction k with
  | zero => intro c f counts _ _ _ hk _; exact absurd hk (by simp)
  | succ k ih =>
    intro c f counts hf hfc hsz _ hc
    rcases Nat.eq_zero_or_pos k with hk0 | hkpos
    · subst hk0
      have hszc : sizes.getD f 0 = c + 1 := hsz.symm
      have hmod : (c + 1) % sizes.getD f 0 = 0 := by
        rw [hszc, Nat.mod_self]
      simp only [cursorRun, cursorStep, hc, hmod, if_pos rfl]
      simp [List.range'_succ]
    · have hlt : c + 1 < sizes.getD f 0 := by omega
      have hmod : (c + 1) % sizes.getD f 0 = c + 1 := Nat.mod_eq_of_lt hlt
      have hne : ¬((c + 1) % sizes.getD f 0 = 0) := by omega
      simp only [cursorRun, cursorStep, hc, hmod,
        if_neg (show ¬(c + 1 = 0) by omega)]
      rw [ih (c + 1) f (counts.set f (c + 1)) hf
        (by simpa using hfc) (by omega) hkpos
        (getD_set_self counts f (c + 1) hfc)]
      rw [List.set_set, List.range'_succ]
      simp

lemma faceSeq_succ_cons (n f m : Nat) (h : f < n) :
    faceSeq n f (m + 1) = f :: faceSeq n ((f + 1) % n) m := by
  unfold faceSeq
  rw [List.range_succ_eq_map, List.map_cons, List.map_map]
  refine congrArg₂ _ (by simpa using Nat.mod_eq_of_lt h) ?_
  refine List.map_eq_map_iff.mpr fun k _ => ?_
  show (f + Nat.succ k) % n = ((f + 1) % n + k) % n
  rw [Nat.mod_add_mod]
  congr 1
  omega

lemma cursorRun_pass (sizes : List Nat) (hpos : ∀ sz ∈ sizes, 0 < sz) :
    ∀ (m f : Nat), f < sizes.length →
      cursorRun sizes ⟨f, List.replicate sizes.length 0⟩
          (((faceSeq sizes.length f m).map fun g => sizes.getD g 0).sum)
        = (⟨(f + m) % sizes.length, List.replicate sizes.length 0⟩,
            (faceSeq sizes.length f m).flatMap fun g =>
              (List.range (sizes.getD g 0)).map fun t => (g, t)) := by
  intro m
  induction m with
  | zero =>
    intro f hf
    simp [faceSeq, cursorRun, Nat.mod_eq_of_lt hf]
  | succ m ih =>
    intro f hf
    have hN : 0 < sizes.length := by omega
    rw [faceSeq_succ_cons _ _ _ hf]
    rw [List.map_cons, List.sum_cons, List.flatMap_cons]
    have hszf : 0 < sizes.getD f 0 := getD_pos_of_mem_pos sizes f hf hpos
    rw [cursorRun_append]
    rw [cursorRun_face sizes (sizes.getD f 0) 0 f _ hf (by simpa using hf)
      (by omega) hszf (getD_replicate_zero _ _)]
    rw [List.set_replicate_self]
    have hf1 : (f + 1) % sizes.length < sizes.length := Nat.mod_lt _ (by omega)
    rw [ih ((f + 1) % sizes.length) hf1]
    have hface : ((f + 1) % sizes.length + m) % sizes.length
        = (f + (m + 1)) % sizes.length := by
      rw [Nat.mod_add_mod]
      congr 1
      omega
    rw [hface, List.range_eq_range']

lemma faceSeq_full_eq (n f : Nat) (h : f < n) :
    faceSeq n f n = List.range' f (n - f) ++ List.range f := by
  unfold faceSeq
  have hsplit : List.range n = List.range' 0 (n - f) ++ List.range' (n - f) f := by
    rw [List.range_eq_range']
    have happ := List.range'_append 0 (n - f) f 1
    simp only [Nat.one_mul, Nat.zero_add] at happ
    have hn : f + (n - f) = n := by omega
    rw [hn] at happ
    exact happ.symm
  rw [hsplit, List.map_append]
  congr 1
  · have h1 : (List.range' 0 (n - f)).map (fun k => (f + k) % n)
        = (List.range' 0 (n - f)).map (fun k => f + k) := by
      refine List.map_eq_map_iff.mpr fun k hk => ?_
      have hk2 := List.mem_range'_1.mp hk
      exact Nat.mod_eq_of_lt (by omega)
    rw [h1]
    have := List.map_add_range' f 0 (n - f)
    simpa using this
  · have h2 : (List.range' (n - f) f).map (fun k => (f + k) % n)
        = (List.range' (n - f) f).map (fun k => k - (n - f)) := by
      refine List.map_eq_map_iff.mpr fun k hk => ?_
      have hk2 := List.mem_range'_1.mp hk
      have hfk : f + k = n + (k - (n - f)) := by omega
      rw [hfk, Nat.add_mod_left]
      exact Nat.mod_eq_of_lt (by omega)
    rw [h2]
    have h3 : List.range' (n - f) f = (List.range' 0 f).map (fun k => (n - f) + k) := by
      have := List.map_add_range' (n - f) 0 f
      simpa using this
    rw [h3, List.map_map, List.range_eq_range']
    refine Eq.trans (List.map_eq_map_iff.mpr fun k hk => ?_) (List.map_id _)
    simp only [Function.comp_apply, id_eq]
    omega

lemma faceSeq_full_perm (n f : Nat) (h : f < n) :
    (faceSeq n f n).Perm (List.range n) := by
  rw [faceSeq_full_eq n f h]
  refine (List.perm_append_comm).trans ?_
  have : List.range f ++ List.range' f (n - f) = List.range n := by
    rw [List.range_eq_range', List.range_eq_range']
    have := List.range'_append 0 f (n - f) 1
    simp only [Nat.one_mul, Nat.zero_add] at this
    rw [this]
    congr 1
    omega
  rw [this]

lemma sum_map_getD_range (l : List Nat) :
    ((List.range l.length).map fun i => l.getD i 0).sum = l.sum := by
  induction l with
  | nil => simp
  | cons a t ih =>
    rw [List.length_cons, List.range_succ_eq_map, List.map_cons, List.map_map,
      List.sum_cons]
    have : (List.range t.length).map ((fun i => (a :: t).getD i 0) ∘ Nat.succ)
        = (List.range t.length).map fun i => t.getD i 0 := by
      refine List.map_eq_map_iff.mpr fun k _ => ?_
      rfl
    rw [this, ih]
    rfl

lemma sum_map_indicator (l : List Nat) (g : Nat) :
    (l.map fun x => if x = g then 1 else 0).sum = l.count g := by
  induction l with
  | nil => simp
  | cons a t ih =>
    rw [List.map_cons, List.sum_cons, ih, List.count_cons]
    by_cases hag : a = g
    · simp [hag, Nat.add_comm]
    · simp [hag, Ne.symm hag]


lemma count_pair_map (g : Nat) (l : List Nat) (t0 : Nat) :
    (l.map fun t => (g, t)).count (g, t0) = l.count t0 := by
  induction l with
  | nil => rfl
  | cons a l ih =>
    simp only [List.map_cons, List.count_cons, ih, beq_iff_eq, Prod.mk.injEq]
    simp

lemma count_map_pair (g sz : Nat) (p : Nat × Nat) :
    ((List.range sz).map fun t => (g, t)).count p
      = if p.1 = g ∧ p.2 < sz then 1 else 0 := by
  rcases p with ⟨gq, t0⟩
  by_cases hg : gq = g
  · subst hg
    rw [count_pair_map]
    by_cases ht : t0 < sz
    · rw [List.count_eq_one_of_mem (List.nodup_range sz) (List.mem_range.mpr ht)]
      simp [ht]
    · rw [List.count_eq_zero.mpr (by simpa using ht)]
      simp [ht]
  · rw [List.count_eq_zero.mpr, if_neg (by simp [hg])]
    intro hmem
    rcases List.mem_map.mp hmem with ⟨t, _, hpair⟩
    exact hg (congrArg Prod.fst hpair).symm

lemma passTrace_count (sizes : List Nat) (f g t : Nat)
    (hf : f < sizes.length) (hg : g < sizes.length)
    (ht : t < sizes.getD g 0) :
    (passTrace sizes f).count (g, t) = 1 := by
  unfold passTrace
  rw [List.flatMap_def, List.count_flatten, List.map_map]
  have hmap : (faceSeq sizes.length f sizes.length).map
        (List.count ((g, t) : Nat × Nat)
          ∘ fun g2 => (List.range (sizes.getD g2 0)).map fun t2 => (g2, t2))
      = (faceSeq sizes.length f sizes.length).map
          fun g2 => if g2 = g then 1 else 0 := by
    refine List.map_eq_map_iff.mpr fun g2 _ => ?_
    simp only [Function.comp_apply]
    rw [count_map_pair]
    by_cases hgg : g2 = g
    · subst hgg
      have ht2 : t < sizes[g2]?.getD 0 := by
        rwa [← List.getD_eq_getElem?_getD]
      simp [ht2]
    · have hgg2 : ¬(g = g2) := fun h => hgg h.symm
      simp [hgg, hgg2]
  rw [hmap, sum_map_indicator,
    List.Perm.count_eq (faceSeq_full_perm sizes.length f hf) g,
    List.count_eq_one_of_mem (List.nodup_range _) (List.mem_range.mpr hg)]

lemma faceSeq_sum (sizes : List Nat) (f : Nat) (hf : f < sizes.length) :
    ((faceSeq sizes.length f sizes.length).map fun g => sizes.getD g 0).sum
      = sizes.sum := by
  rw [List.Perm.sum_eq (List.Perm.map _ (faceSeq_full_perm sizes.length f hf))]
  exact sum_map_getD_range sizes

/-- Claim C4: starting from any face with all per-face fill counts at
zero, running exactly K renderer ticks, where K is the total number of
texels over all atlas faces, visits the texels in face-major then
texel-minor order as described by passTrace, visits every texel exactly
once, returns the cursor to its starting face with all counts reset,
and each tick advances the cursor through cursorStep inside
rendererTick. -/
theorem cursor_full_pass (sizes : List Nat) (f : Nat)
    (hpos : ∀ sz ∈ sizes, 0 < sz) (hf : f < sizes.length) :
    cursorRun sizes ⟨f, List.replicate sizes.length 0⟩ sizes.sum
        = (⟨f, List.replicate sizes.length 0⟩, passTrace sizes f)
      ∧ (∀ g t, g < sizes.length → t < sizes.getD g 0 →
          (passTrace sizes f).count (g, t) = 1)
      ∧ (∀ info probe s, info.length ≠ 0 →
          (rendererTick info probe s).cursor
            = (cursorStep (faceSizes info) s.cursor).next) := by
  refine ⟨?_, fun g t hg ht => passTrace_count sizes f g t hf hg ht,
    fun info probe s h0 => ?_⟩
  · have h := cursorRun_pass sizes hpos sizes.length f hf
    rw [faceSeq_sum sizes f hf] at h
    have hmod : (f + sizes.length) % sizes.length = f := by
      rw [Nat.add_mod_right]
      exact Nat.mod_eq_of_lt hf
    rw [h, hmod]
    rfl
  · unfold rendererTick
    rw [if_neg h0]

/-- Claim C4 witness: a three-face atlas with sizes 2, 1 and 3, starting
at face 1: after 6 ticks the cursor is back at face 1 with zeroed
counts, the trace is the expected pass, texel (1, 0) is visited exactly
once, and one concrete renderer tick advances the cursor through
cursorStep. -/
theorem cursor_full_pass_witness :
    cursorRun [2, 1, 3] ⟨1, List.replicate 3 0⟩ 6
        = (⟨1, List.replicate 3 0⟩, passTrace [2, 1, 3] 1)
      ∧ (passTrace [2, 1, 3] 1).count (1, 0) = 1
      ∧ (rendererTick [⟨1, 1, 0, 0⟩] (fun _ => 0)
            ⟨⟨0, [0]⟩, []⟩).cursor
          = (cursorStep (faceSizes [⟨1, 1, 0, 0⟩]) ⟨0, [0]⟩).next := by
  have h := cursor_full_pass [2, 1, 3] 1 (by decide) (by decide)
  exact ⟨h.1, h.2.1 1 0 (by decide) (by decide),
    h.2.2 [⟨1, 1, 0, 0⟩] (fun _ => 0) ⟨⟨0, [0]⟩, []⟩ (by decide)⟩

/-- Claim C10: the fill cursor starts at atlas face index 4, the stack
promotion triggers exactly when the tick exhausts the last texel of a
face and the advanced face index wraps to 4, the first tick from the
initial state visits face 4, and a full pass starting at face 4 in an
atlas of more than four faces visits faces 4 and upward first and faces
0 to 3 last. -/
theorem fill_cursor_init_promotion :
    atlasFaceFillIndexInit = 4
      ∧ (∀ (sizes : List Nat) (s : FillCursor),
          (cursorStep sizes s).promote = true
            ↔ ((s.counts.getD s.faceIdx 0 + 1) % sizes.getD s.faceIdx 0 = 0
                ∧ (s.faceIdx + 1) % sizes.length = 4))
      ∧ (∀ sizes : List Nat, 4 < sizes.length →
          (cursorStep sizes
              ⟨atlasFaceFillIndexInit, List.replicate sizes.length 0⟩).visited.1
            = 4)
      ∧ (∀ n : Nat, 4 < n →
          faceSeq n atlasFaceFillIndexInit n
            = List.range' 4 (n - 4) ++ List.range 4) := by
  refine ⟨rfl, fun sizes s => ?_, fun sizes _ => ?_, fun n hn => ?_⟩
  · dsimp only [cursorStep]
    by_cases hc : (s.counts.getD s.faceIdx 0 + 1) % sizes.getD s.faceIdx 0 = 0
    · rw [if_pos hc]
      simp only [beq_iff_eq]
      exact ⟨fun h => ⟨hc, h⟩, fun h => h.2⟩
    · rw [if_neg hc]
      simp only [Bool.false_eq_true, false_iff]
      exact fun h => hc h.1
  · dsimp only [cursorStep]
    split <;> rfl
  · exact faceSeq_full_eq n 4 (by omega)

/-- Claim C10 witness: concrete promotion check on a five-face atlas.
Completing face 3 advances the cursor to face 4 and triggers promotion;
the first tick from the initial state visits face 4; the pass order from
face 4 ends with faces 0, 1, 2 and 3. -/
theorem fill_cursor_init_promotion_witness :
    atlasFaceFillIndexInit = 4
      ∧ ((cursorStep [1, 1, 1, 1, 2] ⟨3, [0, 0, 0, 0, 1]⟩).promote = true
          ↔ ((([0, 0, 0, 0, 1] : List Nat).getD 3 0 + 1)
                % ([1, 1, 1, 1, 2] : List Nat).getD 3 0 = 0
              ∧ (3 + 1) % ([1, 1, 1, 1, 2] : List Nat).length = 4))
      ∧ (cursorStep [1, 1, 1, 1, 2]
            ⟨atlasFaceFillIndexInit,
              List.replicate ([1, 1, 1, 1, 2] : List Nat).length 0⟩).visited.1
          = 4
      ∧ faceSeq 5 atlasFaceFillIndexInit 5
          = List.range' 4 (5 - 4) ++ List.range 4 :=
  have h := fill_cursor_init_promotion
  ⟨h.1, h.2.1 [1, 1, 1, 1, 2] ⟨3, [0, 0, 0, 0, 1]⟩,
    h.2.2.1 [1, 1, 1, 1, 2] (by decide), h.2.2.2 5 (by decide)⟩

/-- Claim C9: a renderer tick invoked while no atlas data is available
(the atlas face list is empty, the guard at the top of the useFrame
body) returns the state unchanged: no accumulation buffer data changes,
no dirty flag changes, the fill cursor stays put, and no error is
raised. -/
theorem renderer_tick_noop (info : List FaceInfo) (probe : Nat → Nat)
    (s : RendererState) (h : info.length = 0) :
    rendererTick info probe s = s := by
  unfold rendererTick
  rw [if_pos h]

/-- Claim C9 witness: the no-op tick on the empty atlas face list at a
concrete state. -/
theorem renderer_tick_noop_witness :
    rendererTick [] (fun _ => 0)
        ⟨⟨atlasFaceFillIndexInit, []⟩, [default, default]⟩
      = ⟨⟨atlasFaceFillIndexInit, []⟩, [default, default]⟩ :=
  renderer_tick_noop [] (fun _ => 0)
    ⟨⟨atlasFaceFillIndexInit, []⟩, [default, default]⟩ rfl

/-- Claim C5 counterexample: the written estimate is the rounded mean,
not the mean itself.  For a probe readback whose first pixel has red
value 1 and every other byte is 0, the unweighted red mean is 1/1024,
while the value computed and written by the tick is
Math.round(1/1024) = 0. -/
theorem probe_mean_counterexample :
    probeMean (fun j => if j = 0 then 1 else 0) 0 = 1 / 1024
      ∧ probeEstimate (fun j => if j = 0 then 1 else 0) 0 = 0
      ∧ ((probeEstimate (fun j => if j = 0 then 1 else 0) 0 : ℚ)
          ≠ probeMean (fun j => if j = 0 then 1 else 0) 0) := by
  have hsum : channelSum (fun j => if j = 0 then 1 else 0) 0 = 1 := by
    unfold channelSum probePixelCount probeTargetSize
    rw [Finset.sum_eq_single 0]
    · simp
    · intro i _ hi
      simp [hi]
    · intro h
      exact absurd (Finset.mem_range.mpr (by omega)) h
  have hmean : probeMean (fun j => if j = 0 then 1 else 0) 0 = 1 / 1024 := by
    unfold probeMean probePixelCount probeTargetSize
    rw [hsum]
    norm_num
  have hest : probeEstimate (fun j => if j = 0 then 1 else 0) 0 = 0 := by
    unfold probeEstimate jsRound
    rw [hmean]
    norm_num
  refine ⟨hmean, hest, ?_⟩
  rw [hmean, hest]
  norm_num

/-- Claim C5 (amended): on a tick with atlas faces present and the
two-buffer stack in place, the per-channel estimate written equals the
unweighted mean of the probe readback rounded to the nearest integer;
the write overwrites (independently of the previous content) exactly
the three data slots of the visited texel of the fill buffer, every
other slot keeps its old value, and the written buffer is marked
dirty. -/
theorem tick_overwrites_rounded_mean (info : List FaceInfo)
    (probe : Nat → Nat) (s : RendererState) (layer other : AtlasLayer)
    (h0 : info.length ≠ 0) (hs : s.stack = [layer, other]) :
    (rendererTick info probe s).stack.length = 2
      ∧ (tickWrittenLayer info probe s).data (tickWriteIndex info s.cursor)
          = jsRound (probeMean probe 0)
      ∧ (tickWrittenLayer info probe s).data (tickWriteIndex info s.cursor + 1)
          = jsRound (probeMean probe 1)
      ∧ (tickWrittenLayer info probe s).data (tickWriteIndex info s.cursor + 2)
          = jsRound (probeMean probe 2)
      ∧ (∀ j, j ≠ tickWriteIndex info s.cursor
          → j ≠ tickWriteIndex info s.cursor + 1
          → j ≠ tickWriteIndex info s.cursor + 2
          → (tickWrittenLayer info probe s).data j = layer.data j)
      ∧ (tickWrittenLayer info probe s).dirty = true := by
  have htick : rendererTick info probe s
      = { cursor := (cursorStep (faceSizes info) s.cursor).next,
          stack :=
            if (cursorStep (faceSizes info) s.cursor).promote
            then [other,
              { data := writeTexel layer.data (tickWriteIndex info s.cursor)
                  (probeEstimate probe 0) (probeEstimate probe 1)
                  (probeEstimate probe 2),
                dirty := true }]
            else [{ data := writeTexel layer.data (tickWriteIndex info s.cursor)
                        (probeEstimate probe 0) (probeEstimate probe 1)
                        (probeEstimate probe 2),
                    dirty := true }, other] } := by
    unfold rendererTick
    rw [if_neg h0, hs]
    cases hb : (cursorStep (faceSizes info) s.cursor).promote <;>
      simp [hb, promoteStack]
  have hlayer : tickWrittenLayer info probe s
      = { data := writeTexel layer.data (tickWriteIndex info s.cursor)
            (probeEstimate probe 0) (probeEstimate probe 1)
            (probeEstimate probe 2),
          dirty := true } := by
    unfold tickWrittenLayer
    rw [htick]
    cases hb : (cursorStep (faceSizes info) s.cursor).promote <;> simp [hb]
  refine ⟨?_, ?_, ?_, ?_, fun j h1 h2 h3 => ?_, ?_⟩
  · rw [htick]
    cases hb : (cursorStep (faceSizes info) s.cursor).promote <;> simp [hb]
  · rw [hlayer]
    show writeTexel layer.data (tickWriteIndex info s.cursor)
      (probeEstimate probe 0) (probeEstimate probe 1) (probeEstimate probe 2)
      (tickWriteIndex info s.cursor) = jsRound (probeMean probe 0)
    unfold writeTexel probeEstimate
    rw [if_pos rfl]
  · rw [hlayer]
    show writeTexel layer.data (tickWriteIndex info s.cursor)
      (probeEstimate probe 0) (probeEstimate probe 1) (probeEstimate probe 2)
      (tickWriteIndex info s.cursor + 1) = jsRound (probeMean probe 1)
    unfold writeTexel probeEstimate
    rw [if_neg (by omega), if_pos rfl]
  · rw [hlayer]
    show writeTexel layer.data (tickWriteIndex info s.cursor)
      (probeEstimate probe 0) (probeEstimate probe 1) (probeEstimate probe 2)
      (tickWriteIndex info s.cursor + 2) = jsRound (probeMean probe 2)
    unfold writeTexel probeEstimate
    rw [if_neg (by omega), if_neg (by omega), if_pos rfl]
  · rw [hlayer]
    show writeTexel layer.data (tickWriteIndex info s.cursor)
      (probeEstimate probe 0) (probeEstimate probe 1) (probeEstimate probe 2) j
      = layer.data j
    unfold writeTexel
    rw [if_neg h1, if_neg h2, if_neg h3]
  · rw [hlayer]

/-- Claim C5 witness: one concrete tick on a single one-texel face with
an all-zero probe readback and a default two-buffer stack. -/
theorem tick_overwrites_rounded_mean_witness :
    (rendererTick [⟨1, 1, 0, 0⟩] (fun _ => 0)
        ⟨⟨0, [0]⟩, [default, default]⟩).stack.length = 2
      ∧ (tickWrittenLayer [⟨1, 1, 0, 0⟩] (fun _ => 0)
            ⟨⟨0, [0]⟩, [default, default]⟩).dirty = true
      ∧ (tickWrittenLayer [⟨1, 1, 0, 0⟩] (fun _ => 0)
            ⟨⟨0, [0]⟩, [default, default]⟩).data 5
          = (default : AtlasLayer).data 5 :=
  have h := tick_overwrites_rounded_mean [⟨1, 1, 0, 0⟩] (fun _ => 0)
    ⟨⟨0, [0]⟩, [default, default]⟩ default default (by decide) rfl
  ⟨h.1, h.2.2.2.2.2,
    h.2.2.2.2.1 5 (by decide) (by decide) (by decide)⟩

/-- Claim C3 counterexample: on a concrete unit quad face with all
corner normals (0, 0, 1), evaluated at texel coordinates (1/2, 1/2),
the probe camera position equals the bilinearly interpolated surface
point exactly, with no offset along the normal at all; the normal shift
is applied to the lookAt target instead, which therefore differs from
the camera position.  The claim, which requires the camera itself to
sit slightly off the surface along the interpolated normal, is false
here: any such offset placement would differ from the surface point,
because the interpolated normal is (0, 0, 1), which is nonzero. -/
theorem probe_offset_counterexample :
    (placeProbe unitQuadPos unitQuadNormal 0 (1/2) (1/2) 1 0).position
        = bilinearPoint (faceCorner unitQuadPos 0 2) (faceCorner unitQuadPos 0 3)
            (faceCorner unitQuadPos 0 0) (faceCorner unitQuadPos 0 1) (1/2) (1/2)
      ∧ (placeProbe unitQuadPos unitQuadNormal 0 (1/2) (1/2) 1 0).position
          = (1/2, 1/2, 0)
      ∧ faceCorner unitQuadNormal 0 0 = (0, 0, 1)
      ∧ (placeProbe unitQuadPos unitQuadNormal 0 (1/2) (1/2) 1 0).lookTarget
          ≠ (placeProbe unitQuadPos unitQuadNormal 0 (1/2) (1/2) 1 0).position := by
  refine ⟨?_, ?_, ?_, ?_⟩ <;>
    · norm_num [placeProbe, bilinearPoint, faceCorner, unitQuadPos,
        unitQuadNormal, Prod.ext_iff]

/-- Claim C3 (amended): the camera position is the surface point given
by affine interpolation from the origin corner (vertex 2) along the U
axis (vertex 3 minus vertex 2) and V axis (vertex 0 minus vertex 2) —
the far corner of the quad is never read, so this agrees with bilinear
interpolation only on parallelogram faces; the camera is not offset:
the full, un-interpolated normal of vertex 0 is added to the lookAt
target instead; and the up vector is the U axis times the cosine minus
the V axis times the sine of the fresh random angle, a rotation inside
the face tangent plane. -/
theorem probe_placement (posA normA : Nat → ℚ) (faceIndex : Nat)
    (pU pV cosA sinA : ℚ) :
    (placeProbe posA normA faceIndex pU pV cosA sinA).position
        = affineInterp (faceCorner posA faceIndex 2)
            (faceCorner posA faceIndex 3) (faceCorner posA faceIndex 0) pU pV
      ∧ (placeProbe posA normA faceIndex pU pV cosA sinA).lookTarget
          = (placeProbe posA normA faceIndex pU pV cosA sinA).position
            + faceCorner normA faceIndex 0
      ∧ (placeProbe posA normA faceIndex pU pV cosA sinA).up
          = cosA • (faceCorner posA faceIndex 3 - faceCorner posA faceIndex 2)
            - sinA • (faceCorner posA faceIndex 0 - faceCorner posA faceIndex 2) := by
  unfold placeProbe affineInterp faceCorner
  refine ⟨?_, ?_, ?_⟩ <;>
    simp only [Prod.smul_mk, Prod.mk_add_mk, Prod.mk_sub_mk, smul_eq_mul,
      Prod.mk.injEq, Nat.add_zero, Nat.mul_zero, Nat.mul_one, Nat.reduceMul] <;>
    refine ⟨?_, ?_, ?_⟩ <;> ring

/-! ### Compositor claims C6 and C7 -/

lemma foldl_additive_blend (names : List String) (u : String → ℚ)
    (col : String → ℚ × ℚ × ℚ) :
    ∀ init : ℚ × ℚ × ℚ,
      names.foldl (fun dst n => additiveBlendLayer dst (u n) (col n)) init
        = init + (names.map fun n => u n • col n).sum := by
  induction names with
  | nil =>
    intro init
    simp
  | cons a t ih =>
    intro init
    rw [List.foldl_cons, ih, List.map_cons, List.sum_cons]
    unfold additiveBlendLayer
    rw [add_assoc]

/-- Claim C6 counterexample: the claim scales every layer by the
multiplier value current at the tick, and that formula fails on a
reachable tick.  With a factor uniform still holding 2 from an earlier
tick while the current multiplier value is 0, a constant (1,1,1) base
and a constant (1,1,1) factor texture, the claimed formula — clear to
zero, blend the base at multiplier 1, blend the factor at its current
multiplier 0, spelled below with the additive blend of the code —
gives (1,1,1), but the tick actually composites (3,3,3), because the
uniform refresh ignores the zero edit (the truthiness guard); the two
outputs differ. -/
theorem compositor_stale_layer_counterexample :
    (compositorTick ["sun"] (fun _ => some 0) (1, 1, 1) (fun _ => (1, 1, 1))
        ⟨1, fun _ => 2⟩).2 = (3, 3, 3)
      ∧ additiveBlendLayer (additiveBlendLayer (0, 0, 0) 1 (1, 1, 1)) 0 (1, 1, 1)
          = ((1 : ℚ), 1, 1)
      ∧ (compositorTick ["sun"] (fun _ => some 0) (1, 1, 1) (fun _ => (1, 1, 1))
            ⟨1, fun _ => 2⟩).2
          ≠ additiveBlendLayer (additiveBlendLayer (0, 0, 0) 1 (1, 1, 1)) 0
              (1, 1, 1) := by
  refine ⟨?_, ?_, ?_⟩
  · norm_num [compositorTick, compositorUniformTick, compositeTexel,
      additiveBlendLayer, updateFactorUniform, Prod.ext_iff]
  · norm_num [additiveBlendLayer, Prod.ext_iff]
  · norm_num [compositorTick, compositorUniformTick, compositeTexel,
      additiveBlendLayer, updateFactorUniform, Prod.ext_iff]

/-- Claim C6 (amended): every compositor display tick starts from a
target cleared to zero and adds, for each layer, the sampled layer
colour scaled by the multiplier uniform of that layer as refreshed this
tick — the refresh resets the base uniform to 1 and adopts a new factor
multiplier only when it is nonzero, a zero or missing value leaving the
previous uniform in place — with additive blending across layers; in
particular with a constant (1,1,1) base buffer and one factor buffer
constant (0,0,0) under multiplier 2 the composited texel is exactly
(1,1,1). -/
theorem compositor_additive (factorNames : List String)
    (factors : String → Option ℚ) (baseColor : ℚ × ℚ × ℚ)
    (factorColor : String → ℚ × ℚ × ℚ) (s : CompositorState) :
    (compositorTick factorNames factors baseColor factorColor s).2
        = baseColor
          + (factorNames.map fun n =>
              (compositorUniformTick factorNames factors s).factorUniforms n
                • factorColor n).sum
      ∧ (compositorTick ["sun"] (fun _ => some 2) (1, 1, 1)
            (fun _ => (0, 0, 0)) compositorInit).2 = (1, 1, 1) := by
  constructor
  · show compositeTexel (compositorUniformTick factorNames factors s)
        baseColor factorColor factorNames = _
    unfold compositeTexel
    rw [foldl_additive_blend]
    unfold additiveBlendLayer
    have hz : ((0, 0, 0) : ℚ × ℚ × ℚ) = 0 := rfl
    have hb : (compositorUniformTick factorNames factors s).baseUniform = 1 := rfl
    rw [hz, zero_add, hb, one_smul]
  · norm_num [compositorTick, compositorUniformTick, compositeTexel,
      additiveBlendLayer, updateFactorUniform, compositorInit, Prod.ext_iff]

/-- Claim C7 counterexample: a factor whose multiplier uniform was 2 on
the previous tick and whose current factor value is 0 keeps the stale
uniform 2 on the next tick (the source guards the uniform assignment
behind a truthiness test, and 0 is falsy); compositing a constant
(1,1,1) base with a constant (1,1,1) factor buffer then yields (3,3,3)
although the claim demands (1,1,1). -/
theorem multiplier_zero_counterexample :
    (compositorUniformTick ["sun"] (fun _ => some 0)
        ⟨1, fun _ => 2⟩).factorUniforms "sun" = 2
      ∧ (compositorTick ["sun"] (fun _ => some 0) (1, 1, 1)
          (fun _ => (1, 1, 1)) ⟨1, fun _ => 2⟩).2 = (3, 3, 3) := by
  constructor
  · norm_num [compositorUniformTick, updateFactorUniform]
  · norm_num [compositorTick, compositorUniformTick, compositeTexel,
      additiveBlendLayer, updateFactorUniform, Prod.ext_iff]

/-- Claim C7 (amended): a multiplier edit takes effect on the next tick
for every nonzero new value; an edit to zero (a falsy value, like a
missing entry) is ignored by the uniform refresh, which keeps the
previous multiplier, and the base multiplier is reset to 1 every
tick. -/
theorem multiplier_update (factorNames : List String)
    (factors : String → Option ℚ) (s : CompositorState) (n : String) :
    (∀ m : ℚ, n ∈ factorNames → factors n = some m → m ≠ 0 →
        (compositorUniformTick factorNames factors s).factorUniforms n = m)
      ∧ (factors n = some 0 →
          (compositorUniformTick factorNames factors s).factorUniforms n
            = s.factorUniforms n)
      ∧ (factors n = none →
          (compositorUniformTick factorNames factors s).factorUniforms n
            = s.factorUniforms n)
      ∧ (compositorUniformTick factorNames factors s).baseUniform = 1 := by
  refine ⟨fun m hmem hf hne => ?_, fun hf => ?_, fun hf => ?_, rfl⟩
  · show (if n ∈ factorNames
        then updateFactorUniform factors s.factorUniforms n
        else s.factorUniforms n) = m
    rw [if_pos hmem]
    unfold updateFactorUniform
    rw [hf]
    exact if_neg hne
  · show (if n ∈ factorNames
        then updateFactorUniform factors s.factorUniforms n
        else s.factorUniforms n) = s.factorUniforms n
    by_cases hmem : n ∈ factorNames
    · rw [if_pos hmem]
      unfold updateFactorUniform
      rw [hf]
      exact if_pos rfl
    · exact if_neg hmem
  · show (if n ∈ factorNames
        then updateFactorUniform factors s.factorUniforms n
        else s.factorUniforms n) = s.factorUniforms n
    by_cases hmem : n ∈ factorNames
    · rw [if_pos hmem]
      unfold updateFactorUniform
      rw [hf]
    · exact if_neg hmem

/-- Claim C7 witness: a concrete nonzero edit takes effect, a zero edit
is ignored, and the base multiplier becomes 1. -/
theorem multiplier_update_witness :
    (compositorUniformTick ["sun"] (fun _ => some 3)
        compositorInit).factorUniforms "sun" = 3
      ∧ ((fun _ => some 0 : String → Option ℚ) "sun" = some 0 →
          (compositorUniformTick ["sun"] (fun _ => some 0)
              ⟨1, fun _ => 2⟩).factorUniforms "sun"
            = (⟨1, fun _ => 2⟩ : CompositorState).factorUniforms "sun")
      ∧ (compositorUniformTick ["sun"] (fun _ => some 3)
          compositorInit).baseUniform = 1 :=
  ⟨(multiplier_update ["sun"] (fun _ => some 3) compositorInit "sun").1 3
      (by decide) rfl (by norm_num),
    (multiplier_update ["sun"] (fun _ => some 0) ⟨1, fun _ => 2⟩ "sun").2.1,
    (multiplier_update ["sun"] (fun _ => some 3) compositorInit "sun").2.2.2⟩

end TileGame
